import Mathlib

/-!
# Verification of the wolf-logic cache / time-sync core

Shallow embedding of the two components of the repository that carry the
actual logic:

* `src/server/redis_manager.py` — `RedisCache` (key derivation, get/set/
  delete/clear), `SessionManager`, `RateLimiter`, `MemoryCache`.
* `src/server/timesync_app.py` — `TimeSyncManager` (service registry with
  staleness detection and timestamp comparison).

Modelling conventions:

* The external redis store is modelled as an association list from string
  keys to values of a type parameter `α`; JSON serialization
  (`json.dumps` / `json.loads`) is modelled as the identity embedding of
  the stored value, and TTLs are recorded in the signatures but not
  modelled (no claim under verification concerns expiry).
* Machine integers are `Nat` / `Int`; MD5 32-bit words are `Nat` reduced
  `% 4294967296` at every arithmetic step exactly as the digest algorithm
  requires.
* Timestamps (`datetime.now()` values) are integers in milliseconds since
  the epoch; every clock read performed by the python code becomes an
  explicit parameter of the embedded operation.
* Fallible paths return `Option` / `Bool` exactly as the python code
  reports them through return values.
-/

/-! ## MD5 (model of `hashlib.md5(...).hexdigest()` used by `_generate_key`)

`hashlib` is the python standard library; the digest algorithm is embedded
in full (RFC 1321) over `Nat` so that nothing about the hash is stubbed.
-/

/-- 2^32; all MD5 word arithmetic is reduced modulo this. -/
def MASK32 : Nat := 4294967296

/-- Left-rotation of a 32-bit word (`x < MASK32`): the low `32 - n` bits
move up by `n` and the high `n` bits wrap to the bottom. -/
def rotl32 (x n : Nat) : Nat := (x * 2 ^ n + x / 2 ^ (32 - n)) % MASK32

/-- The 64 MD5 sine-derived round constants `K[i]` (RFC 1321). -/
def mdK : List Nat :=
  [0xd76aa478, 0xe8c7b756, 0x242070db, 0xc1bdceee,
   0xf57c0faf, 0x4787c62a, 0xa8304613, 0xfd469501,
   0x698098d8, 0x8b44f7af, 0xffff5bb1, 0x895cd7be,
   0x6b901122, 0xfd987193, 0xa679438e, 0x49b40821,
   0xf61e2562, 0xc040b340, 0x265e5a51, 0xe9b6c7aa,
   0xd62f105d, 0x02441453, 0xd8a1e681, 0xe7d3fbc8,
   0x21e1cde6, 0xc33707d6, 0xf4d50d87, 0x455a14ed,
   0xa9e3e905, 0xfcefa3f8, 0x676f02d9, 0x8d2a4c8a,
   0xfffa3942, 0x8771f681, 0x6d9d6122, 0xfde5380c,
   0xa4beea44, 0x4bdecfa9, 0xf6bb4b60, 0xbebfbc70,
   0x289b7ec6, 0xeaa127fa, 0xd4ef3085, 0x04881d05,
   0xd9d4d039, 0xe6db99e5, 0x1fa27cf8, 0xc4ac5665,
   0xf4292244, 0x432aff97, 0xab9423a7, 0xfc93a039,
   0x655b59c3, 0x8f0ccc92, 0xffeff47d, 0x85845dd1,
   0x6fa87e4f, 0xfe2ce6e0, 0xa3014314, 0x4e0811a1,
   0xf7537e82, 0xbd3af235, 0x2ad7d2bb, 0xeb86d391]

/-- The 64 MD5 per-round shift amounts `s[i]` (RFC 1321). -/
def mdS : List Nat :=
  [7, 12, 17, 22, 7, 12, 17, 22, 7, 12, 17, 22, 7, 12, 17, 22,
   5, 9, 14, 20, 5, 9, 14, 20, 5, 9, 14, 20, 5, 9, 14, 20,
   4, 11, 16, 23, 4, 11, 16, 23, 4, 11, 16, 23, 4, 11, 16, 23,
   6, 10, 15, 21, 6, 10, 15, 21, 6, 10, 15, 21, 6, 10, 15, 21]

/-- Word `g` of a 64-byte chunk, read little-endian from bytes
`4g .. 4g+3` (missing bytes read as `0`). -/
def wordAt (chunk : List Nat) (g : Nat) : Nat :=
  chunk.getD (4 * g) 0 + 256 * chunk.getD (4 * g + 1) 0 +
    65536 * chunk.getD (4 * g + 2) 0 + 16777216 * chunk.getD (4 * g + 3) 0

/-- One of the 64 MD5 operations on the running state `(a, b, c, d)`. -/
def md5Round (chunk : List Nat) (st : Nat × Nat × Nat × Nat) (i : Nat) :
    Nat × Nat × Nat × Nat :=
  let (a, b, c, d) := st
  let fg : Nat × Nat :=
    if i < 16 then ((b &&& c) ||| ((b ^^^ 0xffffffff) &&& d), i)
    else if i < 32 then ((d &&& b) ||| ((d ^^^ 0xffffffff) &&& c), (5 * i + 1) % 16)
    else if i < 48 then (b ^^^ c ^^^ d, (3 * i + 5) % 16)
    else (c ^^^ (b ||| (d ^^^ 0xffffffff)), (7 * i) % 16)
  let f := (fg.1 + a + mdK.getD i 0 + wordAt chunk fg.2) % MASK32
  (d, (b + rotl32 f (mdS.getD i 0)) % MASK32, b, c)

/-- Process one 64-byte chunk: run the 64 rounds and add the result to the
incoming state, word-wise modulo 2^32. -/
def md5Chunk (st : Nat × Nat × Nat × Nat) (chunk : List Nat) :
    Nat × Nat × Nat × Nat :=
  let (a0, b0, c0, d0) := st
  let (a, b, c, d) := (List.range 64).foldl (md5Round chunk) st
  ((a0 + a) % MASK32, (b0 + b) % MASK32, (c0 + c) % MASK32, (d0 + d) % MASK32)

/-- Split a byte list into chunks of 64. -/
def toChunks : List Nat → List (List Nat)
  | [] => []
  | b :: bs => ((b :: bs).take 64) :: toChunks ((b :: bs).drop 64)
termination_by l => l.length
decreasing_by simp [List.length_drop]; omega

/-- MD5 padding: a `0x80` byte, zeros to 56 mod 64, then the original bit
length as 8 little-endian bytes. -/
def md5Pad (msg : List Nat) : List Nat :=
  let lenBits := (8 * msg.length) % 2 ^ 64
  let zeros := (120 - (msg.length + 1) % 64) % 64
  msg ++ [0x80] ++ List.replicate zeros 0 ++
    [lenBits % 256, lenBits / 256 % 256, lenBits / 65536 % 256,
     lenBits / 16777216 % 256, lenBits / 2 ^ 32 % 256, lenBits / 2 ^ 40 % 256,
     lenBits / 2 ^ 48 % 256, lenBits / 2 ^ 56 % 256]

/-- The MD5 state after digesting a whole message. -/
def md5State (msg : List Nat) : Nat × Nat × Nat × Nat :=
  (toChunks (md5Pad msg)).foldl md5Chunk
    (0x67452301, 0xefcdab89, 0x98badcfe, 0x10325476)

/-- A 32-bit word as 4 little-endian bytes. -/
def le4 (x : Nat) : List Nat :=
  [x % 256, x / 256 % 256, x / 65536 % 256, x / 16777216 % 256]

/-- The 16 digest bytes of a message. -/
def md5Bytes (msg : List Nat) : List Nat :=
  let (a, b, c, d) := md5State msg
  le4 a ++ le4 b ++ le4 c ++ le4 d

/-- Lowercase hex digit for `n` (only ever applied to values `< 16`;
the out-of-range default is the hex digit `0`). -/
def hexChar (n : Nat) : Char :=
  "0123456789abcdef".data.getD n '0'

/-- A byte as two lowercase hex characters. -/
def byteHex (b : Nat) : List Char :=
  [hexChar (b / 16 % 16), hexChar (b % 16)]

/-- UTF-8 encoding of a unicode code point (model of python `str.encode()`
applied character-wise). -/
def utf8Encode (n : Nat) : List Nat :=
  if n < 128 then [n]
  else if n < 2048 then [192 + n / 64, 128 + n % 64]
  else if n < 65536 then [224 + n / 4096, 128 + n / 64 % 64, 128 + n % 64]
  else [240 + n / 262144, 128 + n / 4096 % 64, 128 + n / 64 % 64, 128 + n % 64]

/-- The UTF-8 bytes of a string. -/
def strBytes (s : String) : List Nat :=
  s.data.flatMap (fun c => utf8Encode c.toNat)

/-- `hashlib.md5(s.encode()).hexdigest()`: the 32 lowercase hex characters
of the MD5 digest of the UTF-8 encoding of `s`. -/
def md5Hex (s : String) : String :=
  String.mk ((md5Bytes (strBytes s)).flatMap byteHex)

/-- Whether a character is a lowercase hex digit. -/
def isHexChar (c : Char) : Bool :=
  "0123456789abcdef".data.contains c

theorem isHexChar_hexChar (n : Nat) : isHexChar (hexChar n) = true := by
  rcases Nat.lt_or_ge n 16 with h | h
  · have : ∀ i : Fin 16, isHexChar (hexChar i.val) = true := by decide
    exact this ⟨n, h⟩
  · rw [hexChar, List.getD_eq_default]
    · decide
    · simpa using h

theorem byteHex_length (b : Nat) : (byteHex b).length = 2 := rfl

theorem flatMap_byteHex_length (l : List Nat) :
    (l.flatMap byteHex).length = 2 * l.length := by
  induction l with
  | nil => rfl
  | cons b t ih => simp [List.flatMap_cons, byteHex, ih]; omega

theorem md5Bytes_length (msg : List Nat) : (md5Bytes msg).length = 16 := by
  rw [md5Bytes]
  obtain ⟨a, b, c, d⟩ := md5State msg
  rfl

/-- The hex digest always has exactly 32 characters. -/
theorem md5Hex_length (s : String) : (md5Hex s).length = 32 := by
  show ((md5Bytes (strBytes s)).flatMap byteHex).length = 32
  rw [flatMap_byteHex_length, md5Bytes_length]

/-- Every character of the hex digest is a lowercase hex digit. -/
theorem md5Hex_all_hex (s : String) :
    ∀ c ∈ (md5Hex s).data, isHexChar c = true := by
  intro c hc
  have hc' : c ∈ (md5Bytes (strBytes s)).flatMap byteHex := hc
  rw [List.mem_flatMap] at hc'
  obtain ⟨b, _, hb⟩ := hc'
  simp only [byteHex, List.mem_cons, List.not_mem_nil, or_false] at hb
  rcases hb with h | h <;> (rw [h]; exact isHexChar_hexChar _)

/-! ## Glob matching (model of the redis `KEYS pattern` command)

`clear_pattern` relies on redis glob-style patterns.  The repository only
ever builds patterns from literal characters and a trailing (or lone)
`*`, so the model implements the `*` and `?` wildcards and literal
matching (character classes are out of scope). -/

/-- Glob match of a pattern (left) against a string (right), both as
character lists: `*` matches any number of characters, `?` exactly one,
anything else itself. -/
def globMatch : List Char → List Char → Bool
  | [], s => s.isEmpty
  | p :: ps, s =>
    if p = '*' then (List.range (s.length + 1)).any fun i => globMatch ps (s.drop i)
    else
      match s with
      | [] => false
      | c :: cs => (p == c || p == '?') && globMatch ps cs

/-! ## Association-list store

The remote redis key space is a map from string keys to stored values;
it is modelled as an association list with at most one entry per key. -/

/-- Look up a key (model of a redis `GET`). -/
def lookupKV {α : Type} : List (String × α) → String → Option α
  | [], _ => none
  | (k, v) :: rest, key => if k == key then some v else lookupKV rest key

/-- Overwrite-or-insert a key (model of a redis `SET` / dict assignment). -/
def insertKV {α : Type} (l : List (String × α)) (k : String) (v : α) :
    List (String × α) :=
  l.filter (fun p => p.1 != k) ++ [(k, v)]

/-- Apply `f` to the value stored at `k0`, leaving other keys unchanged
(model of an in-place record mutation / redis `INCR` on a present key). -/
def adjustKV {α : Type} (l : List (String × α)) (k0 : String) (f : α → α) :
    List (String × α) :=
  l.map fun p => if p.1 = k0 then (p.1, f p.2) else p

theorem lookupKV_append {α : Type} (l1 l2 : List (String × α)) (k : String) :
    lookupKV (l1 ++ l2) k =
      match lookupKV l1 k with
      | some v => some v
      | none => lookupKV l2 k := by
  induction l1 with
  | nil => simp [lookupKV]
  | cons p t ih =>
    obtain ⟨k1, v1⟩ := p
    by_cases h : k1 = k <;> simp [lookupKV, h, ih]

theorem lookupKV_filter_ne {α : Type} (l : List (String × α)) (k : String) :
    lookupKV (l.filter (fun p => p.1 != k)) k = none := by
  induction l with
  | nil => rfl
  | cons p t ih =>
    obtain ⟨k1, v1⟩ := p
    by_cases h : k1 = k
    · simpa [List.filter_cons, bne, h] using ih
    · simpa [List.filter_cons, bne, h, lookupKV] using ih

/-- After an upsert, looking up the same key yields the new value. -/
theorem lookupKV_insert_self {α : Type} (l : List (String × α)) (k : String)
    (v : α) : lookupKV (insertKV l k v) k = some v := by
  rw [insertKV, lookupKV_append, lookupKV_filter_ne]
  simp [lookupKV]

/-- After an upsert, other keys are unchanged. -/
theorem lookupKV_insert_ne {α : Type} (l : List (String × α)) (k k' : String)
    (v : α) (h : k ≠ k') : lookupKV (insertKV l k v) k' = lookupKV l k' := by
  rw [insertKV, lookupKV_append]
  induction l with
  | nil => simp [lookupKV, h]
  | cons p t ih =>
    obtain ⟨k1, v1⟩ := p
    rw [List.filter_cons]
    by_cases h1 : k1 = k
    · subst h1
      have h2 : k1 ≠ k' := h
      simpa [lookupKV, h2] using ih
    · have hb : ((k1, v1).1 != k) = true := by simp [bne, h1]
      rw [if_pos hb]
      by_cases h2 : k1 = k'
      · subst h2; simp [lookupKV]
      · simpa [lookupKV, h2] using ih

theorem lookupKV_adjust_self {α : Type} (l : List (String × α)) (k : String)
    (f : α → α) : lookupKV (adjustKV l k f) k = (lookupKV l k).map f := by
  induction l with
  | nil => rfl
  | cons p t ih =>
    obtain ⟨k1, v1⟩ := p
    show lookupKV ((if k1 = k then (k1, f v1) else (k1, v1)) :: adjustKV t k f) k
      = Option.map f (lookupKV ((k1, v1) :: t) k)
    by_cases h : k1 = k
    · rw [if_pos h]; subst h; simp [lookupKV]
    · rw [if_neg h]; simpa [lookupKV, h] using ih

/-- Looking up a key removed by a pattern-filter fails, provided the key
itself matches the pattern. -/
theorem lookupKV_filter_glob {α : Type} (l : List (String × α)) (pat k : String)
    (hk : globMatch pat.data k.data = true) :
    lookupKV (l.filter (fun p => !globMatch pat.data p.1.data)) k = none := by
  induction l with
  | nil => rfl
  | cons p t ih =>
    obtain ⟨k1, v1⟩ := p
    by_cases h : globMatch pat.data k1.data = true
    · simpa [List.filter_cons, h] using ih
    · have hne : ¬ (k1 = k) := fun he => h (by rw [he]; exact hk)
      simpa [List.filter_cons, h, lookupKV, hne] using ih

/-! ## Key derivation (`RedisCache._generate_key`, redis_manager.py 39-51) -/

/-- Python tuple comparison on `(key, value)` pairs, as used by
`sorted(kwargs.items())`: by key first, then by value. -/
def pairLe (a b : String × String) : Prop :=
  a.1 < b.1 ∨ (a.1 = b.1 ∧ a.2 ≤ b.2)

instance : DecidableRel pairLe := fun a b => by
  unfold pairLe; infer_instance

instance : IsTotal (String × String) pairLe := by
  constructor
  intro a b
  rcases lt_trichotomy a.1 b.1 with h | h | h
  · exact Or.inl (Or.inl h)
  · rcases le_total a.2 b.2 with h2 | h2
    · exact Or.inl (Or.inr ⟨h, h2⟩)
    · exact Or.inr (Or.inr ⟨h.symm, h2⟩)
  · exact Or.inr (Or.inl h)

instance : IsTrans (String × String) pairLe := by
  constructor
  intro a b c hab hbc
  rcases hab with h1 | ⟨h1, h1'⟩ <;> rcases hbc with h2 | ⟨h2, h2'⟩
  · exact Or.inl (h1.trans h2)
  · exact Or.inl (h2 ▸ h1)
  · exact Or.inl (h1 ▸ h2)
  · exact Or.inr ⟨h1.trans h2, h1'.trans h2'⟩

instance : IsAntisymm (String × String) pairLe := by
  constructor
  intro a b hab hba
  rcases hab with h1 | ⟨h1, h1'⟩ <;> rcases hba with h2 | ⟨h2, h2'⟩
  · exact absurd h2 (lt_asymm h1)
  · exact absurd h1 (h2 ▸ lt_irrefl _)
  · exact absurd h2 (h1 ▸ lt_irrefl _)
  · exact Prod.ext h1 (le_antisymm h1' h2')

/-- `RedisCache._generate_key(prefix, *args, **kwargs)`.

The python parameter is named `prefix` (a reserved word here, so the
binder is `pfx`); positional arguments are modelled post-`str()` as
strings, and keyword arguments as key/value string pairs.  The parts are
joined with `:`; a joined key longer than 256 characters is replaced by
the prefix followed by the MD5 hex digest of the whole joined key. -/
def generateKey (pfx : String) (args : List String)
    (kwargs : List (String × String)) : String :=
  let keyParts := (pfx :: args) ++
    (List.insertionSort pairLe kwargs).map fun kv => kv.1 ++ ":" ++ kv.2
  let key := String.intercalate ":" keyParts
  if key.length > 256 then pfx ++ ":" ++ md5Hex key else key

/-! ## `RedisCache` (redis_manager.py 18-119)

`connected` records whether the constructor's ping succeeded; when it is
`false` every operation takes its early-return branch.  The remote store
is the `store` field; transient per-operation store failures (each caught
by a `try/except` returning the same defaults) are not modelled — the
store, once connected, answers every call. -/

structure RedisCache (α : Type) where
  connected : Bool
  store : List (String × α)
deriving DecidableEq, Repr

/-- `RedisCache.get`: `None` when disabled, otherwise the stored value
(JSON decoding modelled as identity). -/
def RedisCache.get {α : Type} (c : RedisCache α) (key : String) : Option α :=
  if !c.connected then none
  else lookupKV c.store key

/-- `RedisCache.set`: `False` when disabled, otherwise stores the value
and returns `True`.  The `ttl` argument is kept for signature parity;
expiry is not modelled. -/
def RedisCache.set {α : Type} (c : RedisCache α) (key : String) (value : α)
    (ttl : Option Nat := some 3600) : Bool × RedisCache α :=
  if !c.connected then (false, c)
  else (true, { c with store := insertKV c.store key value })

/-- `RedisCache.delete`: `False` when disabled, otherwise removes the key
and returns `True`. -/
def RedisCache.delete {α : Type} (c : RedisCache α) (key : String) :
    Bool × RedisCache α :=
  if !c.connected then (false, c)
  else (true, { c with store := c.store.filter fun p => p.1 != key })

/-- `RedisCache.clear_pattern`: `0` when disabled, otherwise deletes every
key matching the glob pattern and returns how many were deleted. -/
def RedisCache.clear_pattern {α : Type} (c : RedisCache α) (pat : String) :
    Nat × RedisCache α :=
  if !c.connected then (0, c)
  else
    let matched := c.store.filter fun p => globMatch pat.data p.1.data
    (matched.length,
      { c with store := c.store.filter fun p => !globMatch pat.data p.1.data })

/-- `RedisCache.clear_all`: `False` when disabled, otherwise flushes the
store and returns `True`. -/
def RedisCache.clear_all {α : Type} (c : RedisCache α) : Bool × RedisCache α :=
  if !c.connected then (false, c)
  else (true, { c with store := [] })

/-! ## `SessionManager` (redis_manager.py 158-194) -/

/-- `SessionManager.session_ttl = 86400 * 7`. -/
def session_ttl : Nat := 86400 * 7

/-- `SessionManager.create_session`: writes the session under
`session:<user_id>` and returns the session key.  The python function
returns a `str`; the result is embedded as `Option String` because the
caller `update_session` tests it with `is not None`. -/
def SessionManager.create_session {α : Type} (c : RedisCache α)
    (user_id : String) (data : α) : Option String × RedisCache α :=
  let session_key := "session:" ++ user_id
  let r := c.set session_key data (some session_ttl)
  (some session_key, r.2)

/-- `SessionManager.update_session`: delegates to `create_session` and
reports whether its result `is not None`. -/
def SessionManager.update_session {α : Type} (c : RedisCache α)
    (user_id : String) (data : α) : Bool × RedisCache α :=
  let r := SessionManager.create_session c user_id data
  (r.1.isSome, r.2)

/-! ## `RateLimiter` (redis_manager.py 197-238)

Counters live in the shared store under `ratelimit:<identifier>`; the
stored JSON integer is modelled as `Int` (`int(current)` is identity). -/

/-- `RateLimiter.is_allowed`: always `True` when the store is disabled;
on a missing counter initializes it to 1 via `cache.set` (result ignored)
and allows; otherwise denies when the counter has reached `max_requests`,
else increments and allows. -/
def RateLimiter.is_allowed (c : RedisCache Int) (identifier : String)
    (max_requests : Int := 100) (window : Nat := 60) :
    Bool × RedisCache Int :=
  if !c.connected then (true, c)
  else
    let key := "ratelimit:" ++ identifier
    match lookupKV c.store key with
    | none => (true, (c.set key 1 (some window)).2)
    | some current =>
      if current ≥ max_requests then (false, c)
      else (true, { c with store := adjustKV c.store key (· + 1) })

/-- `RateLimiter.get_remaining`: `max_requests` when disabled or when no
counter exists, otherwise `max(0, max_requests - current)`. -/
def RateLimiter.get_remaining (c : RedisCache Int) (identifier : String)
    (max_requests : Int := 100) : Int :=
  if !c.connected then max_requests
  else
    match lookupKV c.store ("ratelimit:" ++ identifier) with
    | none => max_requests
    | some current => max 0 (max_requests - current)

/-! ## `MemoryCache` search API (redis_manager.py 241-263) -/

/-- `MemoryCache.search_ttl = 3600`. -/
def search_ttl : Nat := 3600

/-- `MemoryCache.cache_search`: stores the results under the key derived
from `("search", user_id, query)` with the search TTL. -/
def MemoryCache.cache_search {α : Type} (c : RedisCache α) (query : String)
    (results : α) (user_id : String := "default") : Bool × RedisCache α :=
  let key := generateKey "search" [user_id, query] []
  c.set key results (some search_ttl)

/-- `MemoryCache.get_cached_search`: reads the same derived key. -/
def MemoryCache.get_cached_search {α : Type} (c : RedisCache α)
    (query : String) (user_id : String := "default") : Option α :=
  let key := generateKey "search" [user_id, query] []
  c.get key

/-- `MemoryCache.invalidate_searches`: clears `search:<user_id>:*`, or
`search:*` when called for every user. -/
def MemoryCache.invalidate_searches {α : Type} (c : RedisCache α)
    (user_id : String := "*") : Nat × RedisCache α :=
  let pattern := if user_id != "*" then "search:" ++ user_id ++ ":*"
    else "search:*"
  c.clear_pattern pattern

/-! ## `TimeSyncManager` (timesync_app.py 60-139)

Timestamps are integer milliseconds since the epoch.  `datetime.now()` is
read once per python statement that calls it, so each embedded operation
takes the value(s) of the clock read(s) it performs as explicit
parameters; `update_sync` performs a second read when it falls back to
`register_service` (timesync_app.py line 66 inside the line 85 call). -/

inductive ServiceStatus where
  | active
  | stale
  | disconnected
deriving DecidableEq, Repr

/-- One `SyncRecord` (timesync_app.py 25-29). -/
structure SyncRecord where
  service : String
  last_sync : Int
  last_memory_update : Int
  status : ServiceStatus
deriving DecidableEq, Repr

/-- The manager: a dict of records plus the staleness threshold
(timesync_app.py 60-63, default 60000 ms). -/
structure TimeSyncManager where
  sync_records : List (String × SyncRecord)
  stale_threshold_ms : Int := 60000
deriving DecidableEq, Repr

/-- `TimeSyncManager.register_service` (timesync_app.py 65-73): upsert
with both timestamps set to the clock read `now` and status active. -/
def TimeSyncManager.register_service (m : TimeSyncManager) (service : String)
    (now : Int) : TimeSyncManager :=
  let record : SyncRecord :=
    { service := service, last_sync := now, last_memory_update := now,
      status := ServiceStatus.active }
  { m with sync_records := insertKV m.sync_records service record }

/-- `TimeSyncManager.update_sync` (timesync_app.py 75-88).  `now` is the
clock read at entry (line 76); `nowReg` is the second clock read inside
`register_service` on the unknown-service path (line 66).  Returns the
entry read `now` together with the new state. -/
def TimeSyncManager.update_sync (m : TimeSyncManager) (service : String)
    (is_memory_update : Bool) (now nowReg : Int) : Int × TimeSyncManager :=
  match lookupKV m.sync_records service with
  | some record =>
    let record' := { record with
      last_sync := now,
      last_memory_update :=
        if is_memory_update then now else record.last_memory_update,
      status := ServiceStatus.active }
    let records' := adjustKV m.sync_records service (fun _ => record')
    (now, { m with sync_records := records' })
  | none => (now, m.register_service service nowReg)

/-- `TimeSyncManager.check_stale` (timesync_app.py 90-103): unknown
service reports stale without touching the state; a known record is
stale when `now - last_sync` exceeds the threshold, and the first such
read while the record is still active flips its status to stale. -/
def TimeSyncManager.check_stale (m : TimeSyncManager) (service : String)
    (now : Int) : Bool × TimeSyncManager :=
  match lookupKV m.sync_records service with
  | none => (true, m)
  | some record =>
    let diff_ms := now - record.last_sync
    let is_stale := diff_ms > m.stale_threshold_ms
    if is_stale ∧ record.status = ServiceStatus.active then
      let records' := adjustKV m.sync_records service
        (fun r => { r with status := ServiceStatus.stale })
      (is_stale, { m with sync_records := records' })
    else (is_stale, m)

/-- The fields of a `CompareResponse` (timesync_app.py 50-57) that carry
computed content; `diff_seconds` is python float division `diff_ms / 1000`
modelled as an exact rational. -/
structure CompareResponse where
  service : String
  client_timestamp : Int
  server_timestamp : Int
  is_client_newer : Bool
  diff_ms : Int
  diff_seconds : Rat
  needs_sync : Bool
deriving DecidableEq, Repr

/-- `TimeSyncManager.compare_timestamps` (timesync_app.py 111-125): the
server timestamp is the record's `last_memory_update`, or the epoch (`0`)
for an unknown service. -/
def TimeSyncManager.compare_timestamps (m : TimeSyncManager)
    (service : String) (client_timestamp : Int) : CompareResponse :=
  let server_timestamp :=
    match lookupKV m.sync_records service with
    | some record => record.last_memory_update
    | none => 0
  let diff_ms := client_timestamp - server_timestamp
  { service := service
    client_timestamp := client_timestamp
    server_timestamp := server_timestamp
    is_client_newer := decide (diff_ms > 0)
    diff_ms := diff_ms
    diff_seconds := (diff_ms : Rat) / 1000
    needs_sync := decide (|diff_ms| > 1000) }

/-- All timestamps stored in the manager are at most `t` (the monotone
clock precondition: a fresh `datetime.now()` read is never earlier than
previously stored reads). -/
def TimesLE (m : TimeSyncManager) (t : Int) : Prop :=
  ∀ p ∈ m.sync_records, p.2.last_sync ≤ t ∧ p.2.last_memory_update ≤ t

/-- States reachable from an empty registry by any sequence of
`register_service`, `update_sync` and `check_stale` calls whose clock
reads are monotone. -/
inductive Reach : TimeSyncManager → Prop where
  | init (threshold : Int) :
      Reach { sync_records := [], stale_threshold_ms := threshold }
  | register (m : TimeSyncManager) (service : String) (now : Int) :
      Reach m → TimesLE m now → Reach (m.register_service service now)
  | update (m : TimeSyncManager) (service : String) (flag : Bool)
      (now nowReg : Int) :
      Reach m → TimesLE m now → now ≤ nowReg →
      Reach (m.update_sync service flag now nowReg).2
  | check (m : TimeSyncManager) (service : String) (now : Int) :
      Reach m → Reach (m.check_stale service now).2

/-! ## Helper lemmas for glob matching and membership -/

theorem lookupKV_mem {α : Type} {l : List (String × α)} {k : String} {v : α}
    (h : lookupKV l k = some v) : (k, v) ∈ l := by
  induction l with
  | nil => simp [lookupKV] at h
  | cons p t ih =>
    obtain ⟨k1, v1⟩ := p
    by_cases hk : k1 = k
    · subst hk
      simp [lookupKV] at h
      simp [h]
    · simp [lookupKV, hk] at h
      exact List.mem_cons_of_mem _ (ih h)

theorem mem_insertKV {α : Type} {l : List (String × α)} {k : String} {v : α}
    {p : String × α} (hp : p ∈ insertKV l k v) : p ∈ l ∨ p = (k, v) := by
  rcases List.mem_append.mp hp with h | h
  · exact Or.inl (List.mem_of_mem_filter h)
  · simp at h
    exact Or.inr h

theorem mem_adjustKV {α : Type} {l : List (String × α)} {k : String}
    {f : α → α} {p : String × α} (hp : p ∈ adjustKV l k f) :
    ∃ q ∈ l, p = if q.1 = k then (q.1, f q.2) else q := by
  rcases List.mem_map.mp hp with ⟨q, hq, he⟩
  exact ⟨q, hq, he.symm⟩

/-- A pattern of literal characters followed by `*` matches any string
with those characters as a prefix. -/
theorem globMatch_append_star (l ys : List Char) :
    globMatch (l ++ ['*']) (l ++ ys) = true := by
  induction l with
  | nil =>
    show globMatch ['*'] ys = true
    simp only [globMatch, if_pos rfl, if_true]
    rw [List.any_eq_true]
    refine ⟨ys.length, ?_, ?_⟩
    · simp
    · simp [globMatch]
  | cons c t ih =>
    by_cases hc : c = '*'
    · subst hc
      show globMatch ('*' :: (t ++ ['*'])) ('*' :: (t ++ ys)) = true
      simp only [globMatch, if_pos rfl, if_true]
      rw [List.any_eq_true]
      refine ⟨1, ?_, ?_⟩
      · simp
      · simpa using ih
    · show globMatch (c :: (t ++ ['*'])) (c :: (t ++ ys)) = true
      simp only [globMatch, if_neg hc]
      simp [ih]

/-- No string of hex digits can match the literal pattern `default:`:
the fifth pattern character `u` is not a hex digit. -/
theorem globMatch_default_hex (h : List Char)
    (hh : ∀ c ∈ h, isHexChar c = true) :
    globMatch "default:*".data h = false := by
  have hd : "default:*".data = ['d', 'e', 'f', 'a', 'u', 'l', 't', ':', '*'] :=
    rfl
  rw [hd]
  rcases h with _ | ⟨c0, h⟩
  · rfl
  rcases eq_or_ne c0 'd' with h0 | h0
  case inr => simp [globMatch, Ne.symm h0]
  subst h0
  rcases h with _ | ⟨c1, h⟩
  · rfl
  rcases eq_or_ne c1 'e' with h1 | h1
  case inr => simp [globMatch, Ne.symm h1]
  subst h1
  rcases h with _ | ⟨c2, h⟩
  · rfl
  rcases eq_or_ne c2 'f' with h2 | h2
  case inr => simp [globMatch, Ne.symm h2]
  subst h2
  rcases h with _ | ⟨c3, h⟩
  · rfl
  rcases eq_or_ne c3 'a' with h3 | h3
  case inr => simp [globMatch, Ne.symm h3]
  subst h3
  rcases h with _ | ⟨c4, h⟩
  · rfl
  have hx : isHexChar c4 = true := hh c4 (by simp)
  have h4 : c4 ≠ 'u' := by
    intro he
    rw [he] at hx
    exact absurd hx (by decide)
  simp [globMatch, Ne.symm h4]

/-! ## Claim theorems -/

/-- **C2.** When the cache is disabled (the constructor's connection test
failed, `connected = false`), every operation returns its safe default and
leaves the cache untouched: `get` is `none`, `set` and `delete` are
`false`, `clear_pattern` is `0`, `clear_all` is `false`.  Each operation
is a total function whose disabled branch is the early `return`, so no
exception can cross the API boundary. -/
theorem cache_disabled_safe_defaults {α : Type} (c : RedisCache α)
    (key pat : String) (v : α) (ttl : Option Nat)
    (hc : c.connected = false) :
    c.get key = none ∧ c.set key v ttl = (false, c) ∧
    c.delete key = (false, c) ∧ c.clear_pattern pat = (0, c) ∧
    c.clear_all = (false, c) := by
  simp [RedisCache.get, RedisCache.set, RedisCache.delete,
    RedisCache.clear_pattern, RedisCache.clear_all, hc]

theorem cache_disabled_safe_defaults_witness :
    (RedisCache.mk (α := Int) false []).get "k" = none ∧
    (RedisCache.mk (α := Int) false []).set "k" 0 none
      = (false, RedisCache.mk false []) ∧
    (RedisCache.mk (α := Int) false []).delete "k"
      = (false, RedisCache.mk false []) ∧
    (RedisCache.mk (α := Int) false []).clear_pattern "p"
      = (0, RedisCache.mk false []) ∧
    (RedisCache.mk (α := Int) false []).clear_all
      = (false, RedisCache.mk false []) :=
  cache_disabled_safe_defaults (RedisCache.mk false []) "k" "p" 0 none rfl

/-- **C10.** `SessionManager.update_session` returns `True` for every
cache state (connected or disabled) and every input: `create_session`
unconditionally returns the session key string, and `update_session` only
tests that this return value `is not None`, so a failed write is never
reported. -/
theorem update_session_always_true {α : Type} (c : RedisCache α)
    (user_id : String) (data : α) :
    (SessionManager.update_session c user_id data).1 = true := by
  simp [SessionManager.update_session, SessionManager.create_session]

/-- **C8.** The rate limiter fails open: with the store disabled,
`is_allowed` is `true` and `get_remaining` equals `max_requests` for all
arguments; `get_remaining` also equals `max_requests` when no counter
exists, and equals `max 0 (max_requests - current)` when a counter
`current` exists on a connected store. -/
theorem rate_limiter_fail_open (c : RedisCache Int) (identifier : String)
    (max_requests : Int) (window : Nat) (current : Int) :
    (c.connected = false →
      (RateLimiter.is_allowed c identifier max_requests window).1 = true ∧
      RateLimiter.get_remaining c identifier max_requests = max_requests) ∧
    (lookupKV c.store ("ratelimit:" ++ identifier) = none →
      RateLimiter.get_remaining c identifier max_requests = max_requests) ∧
    (c.connected = true →
      lookupKV c.store ("ratelimit:" ++ identifier) = some current →
      RateLimiter.get_remaining c identifier max_requests
        = max 0 (max_requests - current)) := by
  refine ⟨fun hc => ?_, fun h0 => ?_, fun hc h1 => ?_⟩
  · simp [RateLimiter.is_allowed, RateLimiter.get_remaining, hc]
  · cases hc : c.connected <;>
      simp [RateLimiter.get_remaining, hc, h0]
  · simp [RateLimiter.get_remaining, hc, h1]

theorem rate_limiter_fail_open_witness :
    (RateLimiter.is_allowed (RedisCache.mk (α := Int) false []) "id" 5 60).1
      = true ∧
    RateLimiter.get_remaining (RedisCache.mk (α := Int) false []) "id" 5 = 5 ∧
    RateLimiter.get_remaining (RedisCache.mk (α := Int) true []) "id" 5 = 5 ∧
    RateLimiter.get_remaining
      (RedisCache.mk (α := Int) true [("ratelimit:id", 2)]) "id" 5
      = max 0 (5 - 2) :=
  ⟨((rate_limiter_fail_open (RedisCache.mk false []) "id" 5 60 2).1 rfl).1,
   ((rate_limiter_fail_open (RedisCache.mk false []) "id" 5 60 2).1 rfl).2,
   (rate_limiter_fail_open (RedisCache.mk true []) "id" 5 60 2).2.1 rfl,
   (rate_limiter_fail_open
     (RedisCache.mk true [("ratelimit:id", 2)]) "id" 5 60 2).2.2 rfl
     (by decide)⟩

/-- **C1 (counterexample).** With `max_requests = 3, window = 60` and no
prior counter, `get_remaining` evaluated after the first `is_allowed`
call reports 2, not 3 as the claim states: the first call initializes the
counter to 1, so `max(0, 3 - 1) = 2`. -/
theorem rate_limit_after_first_call_cex :
    ¬ (RateLimiter.get_remaining
        (RateLimiter.is_allowed (RedisCache.mk (α := Int) true []) "id" 3 60).2
        "id" 3 = 3) := by decide


/-- The cache state after `n` successive `is_allowed` calls for the same
identifier and limits. -/
def isAllowedTrace (c : RedisCache Int) (identifier : String)
    (max_requests : Int) (window : Nat) : Nat → RedisCache Int
  | 0 => c
  | n + 1 =>
    (RateLimiter.is_allowed (isAllowedTrace c identifier max_requests window n)
      identifier max_requests window).2

/-- **C1 (amended).** For the rate limiter with `max_requests = 3` and
`window = 60`, starting from a connected store with no counter for the
identifier, the first three `is_allowed` calls return `true` and the
fourth returns `false`; `get_remaining` reports 3, 2, 1, 0 immediately
*before* each of the four calls — equivalently 2, 1, 0, 0 immediately
*after* each call (after call `i ≤ 3` the counter is `i`, and the denied
fourth call does not increment, so the remaining count stays 0). -/
theorem rate_limit_sequence (c : RedisCache Int) (identifier : String)
    (hc : c.connected = true)
    (h0 : lookupKV c.store ("ratelimit:" ++ identifier) = none) :
    (RateLimiter.is_allowed (isAllowedTrace c identifier 3 60 0)
        identifier 3 60).1 = true ∧
    (RateLimiter.is_allowed (isAllowedTrace c identifier 3 60 1)
        identifier 3 60).1 = true ∧
    (RateLimiter.is_allowed (isAllowedTrace c identifier 3 60 2)
        identifier 3 60).1 = true ∧
    (RateLimiter.is_allowed (isAllowedTrace c identifier 3 60 3)
        identifier 3 60).1 = false ∧
    RateLimiter.get_remaining (isAllowedTrace c identifier 3 60 0)
      identifier 3 = 3 ∧
    RateLimiter.get_remaining (isAllowedTrace c identifier 3 60 1)
      identifier 3 = 2 ∧
    RateLimiter.get_remaining (isAllowedTrace c identifier 3 60 2)
      identifier 3 = 1 ∧
    RateLimiter.get_remaining (isAllowedTrace c identifier 3 60 3)
      identifier 3 = 0 ∧
    RateLimiter.get_remaining (isAllowedTrace c identifier 3 60 4)
      identifier 3 = 0 := by
  obtain ⟨conn, st0⟩ := c
  change conn = true at hc
  subst hc
  change lookupKV st0 ("ratelimit:" ++ identifier) = none at h0
  have e1 : RateLimiter.is_allowed (RedisCache.mk true st0) identifier 3 60
      = (true, RedisCache.mk true
          (insertKV st0 ("ratelimit:" ++ identifier) 1)) := by
    simp [RateLimiter.is_allowed, h0, RedisCache.set]
  have l1 : lookupKV (insertKV st0 ("ratelimit:" ++ identifier) 1)
      ("ratelimit:" ++ identifier) = some 1 :=
    lookupKV_insert_self _ _ _
  have e2 : RateLimiter.is_allowed
      (RedisCache.mk true (insertKV st0 ("ratelimit:" ++ identifier) 1))
      identifier 3 60
      = (true, RedisCache.mk true
          (adjustKV (insertKV st0 ("ratelimit:" ++ identifier) 1)
            ("ratelimit:" ++ identifier) (· + 1))) := by
    simp [RateLimiter.is_allowed, l1]
  have l2 : lookupKV
      (adjustKV (insertKV st0 ("ratelimit:" ++ identifier) 1)
        ("ratelimit:" ++ identifier) (· + 1))
      ("ratelimit:" ++ identifier) = some 2 := by
    rw [lookupKV_adjust_self, l1]; rfl
  have e3 : RateLimiter.is_allowed
      (RedisCache.mk true (adjustKV (insertKV st0 ("ratelimit:" ++ identifier) 1)
        ("ratelimit:" ++ identifier) (· + 1))) identifier 3 60
      = (true, RedisCache.mk true
          (adjustKV (adjustKV (insertKV st0 ("ratelimit:" ++ identifier) 1)
            ("ratelimit:" ++ identifier) (· + 1))
            ("ratelimit:" ++ identifier) (· + 1))) := by
    simp [RateLimiter.is_allowed, l2]
  have l3 : lookupKV
      (adjustKV (adjustKV (insertKV st0 ("ratelimit:" ++ identifier) 1)
        ("ratelimit:" ++ identifier) (· + 1))
        ("ratelimit:" ++ identifier) (· + 1))
      ("ratelimit:" ++ identifier) = some 3 := by
    rw [lookupKV_adjust_self, l2]; rfl
  have e4 : RateLimiter.is_allowed
      (RedisCache.mk true (adjustKV (adjustKV
        (insertKV st0 ("ratelimit:" ++ identifier) 1)
        ("ratelimit:" ++ identifier) (· + 1))
        ("ratelimit:" ++ identifier) (· + 1))) identifier 3 60
      = (false, RedisCache.mk true
          (adjustKV (adjustKV (insertKV st0 ("ratelimit:" ++ identifier) 1)
            ("ratelimit:" ++ identifier) (· + 1))
            ("ratelimit:" ++ identifier) (· + 1))) := by
    simp [RateLimiter.is_allowed, l3]
  have t0 : isAllowedTrace (RedisCache.mk true st0) identifier 3 60 0
      = RedisCache.mk true st0 := rfl
  have t1 : isAllowedTrace (RedisCache.mk true st0) identifier 3 60 1
      = RedisCache.mk true (insertKV st0 ("ratelimit:" ++ identifier) 1) := by
    rw [isAllowedTrace, t0, e1]
  have t2 : isAllowedTrace (RedisCache.mk true st0) identifier 3 60 2
      = RedisCache.mk true
          (adjustKV (insertKV st0 ("ratelimit:" ++ identifier) 1)
            ("ratelimit:" ++ identifier) (· + 1)) := by
    rw [isAllowedTrace, t1, e2]
  have t3 : isAllowedTrace (RedisCache.mk true st0) identifier 3 60 3
      = RedisCache.mk true
          (adjustKV (adjustKV (insertKV st0 ("ratelimit:" ++ identifier) 1)
            ("ratelimit:" ++ identifier) (· + 1))
            ("ratelimit:" ++ identifier) (· + 1)) := by
    rw [isAllowedTrace, t2, e3]
  have t4 : isAllowedTrace (RedisCache.mk true st0) identifier 3 60 4
      = RedisCache.mk true
          (adjustKV (adjustKV (insertKV st0 ("ratelimit:" ++ identifier) 1)
            ("ratelimit:" ++ identifier) (· + 1))
            ("ratelimit:" ++ identifier) (· + 1)) := by
    rw [isAllowedTrace, t3, e4]
  refine ⟨?_, ?_, ?_, ?_, ?_, ?_, ?_, ?_, ?_⟩
  · rw [t0, e1]
  · rw [t1, e2]
  · rw [t2, e3]
  · rw [t3, e4]
  · rw [t0]; simp [RateLimiter.get_remaining, h0]
  · rw [t1]; simp [RateLimiter.get_remaining, l1]
  · rw [t2]; simp [RateLimiter.get_remaining, l2]
  · rw [t3]; simp [RateLimiter.get_remaining, l3]
  · rw [t4]; simp [RateLimiter.get_remaining, l3]

theorem rate_limit_sequence_witness :
    (RateLimiter.is_allowed
        (isAllowedTrace (RedisCache.mk (α := Int) true []) "id" 3 60 0)
        "id" 3 60).1 = true ∧
    (RateLimiter.is_allowed
        (isAllowedTrace (RedisCache.mk (α := Int) true []) "id" 3 60 1)
        "id" 3 60).1 = true ∧
    (RateLimiter.is_allowed
        (isAllowedTrace (RedisCache.mk (α := Int) true []) "id" 3 60 2)
        "id" 3 60).1 = true ∧
    (RateLimiter.is_allowed
        (isAllowedTrace (RedisCache.mk (α := Int) true []) "id" 3 60 3)
        "id" 3 60).1 = false ∧
    RateLimiter.get_remaining
      (isAllowedTrace (RedisCache.mk (α := Int) true []) "id" 3 60 0)
      "id" 3 = 3 ∧
    RateLimiter.get_remaining
      (isAllowedTrace (RedisCache.mk (α := Int) true []) "id" 3 60 1)
      "id" 3 = 2 ∧
    RateLimiter.get_remaining
      (isAllowedTrace (RedisCache.mk (α := Int) true []) "id" 3 60 2)
      "id" 3 = 1 ∧
    RateLimiter.get_remaining
      (isAllowedTrace (RedisCache.mk (α := Int) true []) "id" 3 60 3)
      "id" 3 = 0 ∧
    RateLimiter.get_remaining
      (isAllowedTrace (RedisCache.mk (α := Int) true []) "id" 3 60 4)
      "id" 3 = 0 :=
  rate_limit_sequence (RedisCache.mk true []) "id" rfl rfl

/-- **C6 (counterexample).** For an unknown service, `update_sync` reads
the clock once at entry (timesync_app.py line 76) and `register_service`
reads it again (line 66 via line 85); with entry read 0 and registration
read 1 the stored record is `(last_sync = 1, last_memory_update = 1)` but
the returned timestamp is 0, so the returned timestamp differs from the
stored `last_sync`, and `last_memory_update` is set even though
`is_memory_update` is false. -/
theorem update_sync_returned_ne_stored_cex :
    ((TimeSyncManager.mk [] 60000).update_sync "svc" false 0 1).1 = 0 ∧
    lookupKV ((TimeSyncManager.mk [] 60000).update_sync "svc" false 0 1).2.sync_records
        "svc"
      = some (SyncRecord.mk "svc" 1 1 ServiceStatus.active) ∧
    ¬ (((TimeSyncManager.mk [] 60000).update_sync "svc" false 0 1).1
        = (SyncRecord.mk "svc" 1 1 ServiceStatus.active).last_sync) := by
  refine ⟨rfl, by decide, by decide⟩

/-- **C6 (amended).** For a service already registered, `update_sync`
behaves exactly as claimed: it sets `last_sync = now`, sets
`last_memory_update = now` only when `is_memory_update` is true (leaving
it unchanged otherwise), sets `status = active`, and returns `now`, which
equals the stored `last_sync`.  For an unknown service it first registers
it, and registration sets `last_sync = last_memory_update =` the
registration-time clock read and `status = active` regardless of the
flag; the returned timestamp is the earlier entry-time clock read, which
equals the stored `last_sync` only when the two reads coincide. -/
theorem update_sync_spec (m : TimeSyncManager) (service : String)
    (is_memory_update : Bool) (now nowReg : Int) :
    (∀ record, lookupKV m.sync_records service = some record →
      (m.update_sync service is_memory_update now nowReg).1 = now ∧
      lookupKV (m.update_sync service is_memory_update now nowReg).2.sync_records
          service
        = some { record with
            last_sync := now,
            last_memory_update :=
              if is_memory_update then now else record.last_memory_update,
            status := ServiceStatus.active }) ∧
    (lookupKV m.sync_records service = none →
      (m.update_sync service is_memory_update now nowReg).1 = now ∧
      lookupKV (m.update_sync service is_memory_update now nowReg).2.sync_records
          service
        = some (SyncRecord.mk service nowReg nowReg ServiceStatus.active)) := by
  constructor
  · intro record hrec
    rw [TimeSyncManager.update_sync, hrec]
    dsimp only
    refine ⟨rfl, ?_⟩
    rw [lookupKV_adjust_self, hrec]
    rfl
  · intro hnone
    rw [TimeSyncManager.update_sync, hnone]
    dsimp only [TimeSyncManager.register_service]
    refine ⟨rfl, ?_⟩
    rw [lookupKV_insert_self]

theorem update_sync_spec_witness :
    ((TimeSyncManager.mk [("a", SyncRecord.mk "a" 2 1 ServiceStatus.stale)]
        60000).update_sync "a" false 5 5).1 = 5 ∧
    lookupKV ((TimeSyncManager.mk
        [("a", SyncRecord.mk "a" 2 1 ServiceStatus.stale)]
        60000).update_sync "a" false 5 5).2.sync_records "a"
      = some (SyncRecord.mk "a" 5 1 ServiceStatus.active) ∧
    ((TimeSyncManager.mk [] 60000).update_sync "b" true 7 7).1 = 7 ∧
    lookupKV ((TimeSyncManager.mk [] 60000).update_sync "b" true 7 7).2.sync_records
        "b"
      = some (SyncRecord.mk "b" 7 7 ServiceStatus.active) := by
  have h1 := (update_sync_spec
    (TimeSyncManager.mk [("a", SyncRecord.mk "a" 2 1 ServiceStatus.stale)] 60000)
    "a" false 5 5).1 (SyncRecord.mk "a" 2 1 ServiceStatus.stale) (by decide)
  have h2 := (update_sync_spec (TimeSyncManager.mk [] 60000) "b" true 7 7).2
    (by decide)
  exact ⟨h1.1, h1.2, h2.1, h2.2⟩

/-- **C5.** `compare_timestamps` returns
`diff_ms = client_ts - server_timestamp` where the server timestamp is
the record's `last_memory_update`, or the epoch (0) for an unknown
service; `is_client_newer = (diff_ms > 0)`,
`diff_seconds = diff_ms / 1000`, and `needs_sync = (|diff_ms| > 1000)`.
In particular, after registering `"svc"` at `t0`, comparing against
`t0 + 5000` ms yields `is_client_newer = true`, `diff_ms = 5000`,
`needs_sync = true`, and comparing against `t0 + 200` ms yields
`needs_sync = false`. -/
theorem compare_timestamps_spec (m : TimeSyncManager) (service : String)
    (client_ts t0 : Int) :
    (m.compare_timestamps service client_ts).diff_ms
      = client_ts - (m.compare_timestamps service client_ts).server_timestamp ∧
    (m.compare_timestamps service client_ts).server_timestamp
      = (match lookupKV m.sync_records service with
         | some record => record.last_memory_update
         | none => 0) ∧
    (m.compare_timestamps service client_ts).is_client_newer
      = decide ((m.compare_timestamps service client_ts).diff_ms > 0) ∧
    (m.compare_timestamps service client_ts).diff_seconds
      = ((m.compare_timestamps service client_ts).diff_ms : Rat) / 1000 ∧
    (m.compare_timestamps service client_ts).needs_sync
      = decide (|(m.compare_timestamps service client_ts).diff_ms| > 1000) ∧
    ((m.register_service "svc" t0).compare_timestamps "svc"
        (t0 + 5000)).is_client_newer = true ∧
    ((m.register_service "svc" t0).compare_timestamps "svc"
        (t0 + 5000)).diff_ms = 5000 ∧
    ((m.register_service "svc" t0).compare_timestamps "svc"
        (t0 + 5000)).needs_sync = true ∧
    ((m.register_service "svc" t0).compare_timestamps "svc"
        (t0 + 200)).needs_sync = false := by
  have hreg : lookupKV (m.register_service "svc" t0).sync_records "svc"
      = some (SyncRecord.mk "svc" t0 t0 ServiceStatus.active) := by
    rw [TimeSyncManager.register_service]
    exact lookupKV_insert_self _ _ _
  have h5000 : t0 + 5000 - t0 = (5000 : Int) := by omega
  have h200 : t0 + 200 - t0 = (200 : Int) := by omega
  refine ⟨rfl, rfl, rfl, rfl, rfl, ?_, ?_, ?_, ?_⟩
  · simp [TimeSyncManager.compare_timestamps, hreg, h5000]
  · simp [TimeSyncManager.compare_timestamps, hreg, h5000]
  · simp [TimeSyncManager.compare_timestamps, hreg, h5000]
  · simp [TimeSyncManager.compare_timestamps, hreg, h200]

/-- **C4.** `check_stale` returns `true` for an unknown service without
creating any record; for a known service it returns
`now - last_sync > stale_threshold_ms`, and flips the record's status
from active to stale exactly when that condition holds and the current
status is active (otherwise the state is unchanged).  Repeated calls
while still stale (at any `now2 ≥ now`) do not re-trigger the
transition: the second call leaves the state unchanged and returns the
same result. -/
theorem check_stale_spec (m : TimeSyncManager) (service : String)
    (now now2 : Int) :
    (lookupKV m.sync_records service = none →
      m.check_stale service now = (true, m)) ∧
    (∀ record, lookupKV m.sync_records service = some record →
      (m.check_stale service now).1
        = decide (now - record.last_sync > m.stale_threshold_ms) ∧
      ((now - record.last_sync > m.stale_threshold_ms ∧
          record.status = ServiceStatus.active) →
        lookupKV (m.check_stale service now).2.sync_records service
          = some { record with status := ServiceStatus.stale }) ∧
      (¬ (now - record.last_sync > m.stale_threshold_ms ∧
          record.status = ServiceStatus.active) →
        (m.check_stale service now).2 = m)) ∧
    (now ≤ now2 → (m.check_stale service now).1 = true →
      (m.check_stale service now).2.check_stale service now2
        = (true, (m.check_stale service now).2)) := by
  refine ⟨fun hnone => ?_, fun record hrec => ?_, fun hle h1 => ?_⟩
  · rw [TimeSyncManager.check_stale, hnone]
  · rw [TimeSyncManager.check_stale, hrec]
    dsimp only
    by_cases hcond : now - record.last_sync > m.stale_threshold_ms ∧
        record.status = ServiceStatus.active
    · rw [if_pos hcond]
      refine ⟨by simp [hcond.1], fun _ => ?_, fun hn => absurd hcond hn⟩
      rw [lookupKV_adjust_self, hrec]
      rfl
    · rw [if_neg hcond]
      refine ⟨rfl, fun hy => absurd hy hcond, fun _ => rfl⟩
  · -- second read while still stale
    rcases hrec : lookupKV m.sync_records service with _ | record
    · have e : m.check_stale service now = (true, m) := by
        rw [TimeSyncManager.check_stale, hrec]
      rw [e]
      rw [TimeSyncManager.check_stale, hrec]
    · by_cases hcond : now - record.last_sync > m.stale_threshold_ms ∧
          record.status = ServiceStatus.active
      · have e : m.check_stale service now
            = (true, { m with sync_records := (adjustKV m.sync_records service
                (fun r => { r with status := ServiceStatus.stale })) }) := by
          rw [TimeSyncManager.check_stale, hrec]
          dsimp only
          rw [if_pos hcond]
          simp [hcond.1]
        have hlook : lookupKV (adjustKV m.sync_records service
            (fun r => { r with status := ServiceStatus.stale })) service
            = some { record with status := ServiceStatus.stale } := by
          rw [lookupKV_adjust_self, hrec]; rfl
        have hd2 : now2 - record.last_sync > m.stale_threshold_ms := by
          have := hcond.1; omega
        rw [e, TimeSyncManager.check_stale]
        dsimp only
        rw [hlook]
        dsimp only
        rw [if_neg (by simp)]
        simp [hd2]
      · have e : m.check_stale service now
            = (decide (now - record.last_sync > m.stale_threshold_ms), m) := by
          rw [TimeSyncManager.check_stale, hrec]
          dsimp only
          rw [if_neg hcond]
        rw [e] at h1
        have hd : now - record.last_sync > m.stale_threshold_ms := by
          simpa using h1
        have hst : record.status ≠ ServiceStatus.active := fun ha =>
          hcond ⟨hd, ha⟩
        have hd2 : now2 - record.last_sync > m.stale_threshold_ms := by omega
        rw [e, TimeSyncManager.check_stale, hrec]
        dsimp only
        rw [if_neg (by simp [hst])]
        simp [hd2]

theorem check_stale_spec_witness :
    (TimeSyncManager.mk [] 60000).check_stale "u" 5
      = (true, TimeSyncManager.mk [] 60000) ∧
    ((TimeSyncManager.mk [("s", SyncRecord.mk "s" 0 0 ServiceStatus.active)]
        60000).check_stale "s" 70001).1
      = decide ((70001 : Int) - 0 > 60000) ∧
    lookupKV ((TimeSyncManager.mk
        [("s", SyncRecord.mk "s" 0 0 ServiceStatus.active)]
        60000).check_stale "s" 70001).2.sync_records "s"
      = some (SyncRecord.mk "s" 0 0 ServiceStatus.stale) ∧
    ((TimeSyncManager.mk [("s", SyncRecord.mk "s" 0 0 ServiceStatus.active)]
        60000).check_stale "s" 70001).2.check_stale "s" 70002
      = (true, ((TimeSyncManager.mk
          [("s", SyncRecord.mk "s" 0 0 ServiceStatus.active)]
          60000).check_stale "s" 70001).2) := by
  have h := check_stale_spec
    (TimeSyncManager.mk [("s", SyncRecord.mk "s" 0 0 ServiceStatus.active)]
      60000) "s" 70001 70002
  have hu := (check_stale_spec (TimeSyncManager.mk [] 60000) "u" 5 5).1 rfl
  have hk := h.2.1 (SyncRecord.mk "s" 0 0 ServiceStatus.active) (by decide)
  refine ⟨hu, ?_, ?_, ?_⟩
  · simpa using hk.1
  · simpa using hk.2.1 (by constructor <;> decide)
  · exact h.2.2 (by decide) (by rw [hk.1]; decide)

/-- **C9.** In every state reachable by any sequence of
`register_service`, `update_sync` and `check_stale` calls with a
monotone clock, every stored record satisfies
`last_memory_update ≤ last_sync`: registration sets both equal,
`update_sync` raises `last_sync` to the current clock read and touches
`last_memory_update` only on a memory-update event, and `check_stale`
changes no timestamps. -/
theorem sync_records_invariant (m : TimeSyncManager) (h : Reach m) :
    ∀ p ∈ m.sync_records, p.2.last_memory_update ≤ p.2.last_sync := by
  induction h with
  | init threshold => intro p hp; simp at hp
  | register m service now _ htle ih =>
    intro p hp
    rw [TimeSyncManager.register_service] at hp
    rcases mem_insertKV hp with hmem | hnew
    · exact ih p hmem
    · rw [hnew]
  | update m service flag now nowReg _ htle hle ih =>
    intro p hp
    rw [TimeSyncManager.update_sync] at hp
    rcases hrec : lookupKV m.sync_records service with _ | record
    · rw [hrec] at hp
      dsimp only at hp
      rw [TimeSyncManager.register_service] at hp
      rcases mem_insertKV hp with hmem | hnew
      · exact ih p hmem
      · rw [hnew]
    · rw [hrec] at hp
      dsimp only at hp
      rcases mem_adjustKV hp with ⟨q, hq, he⟩
      by_cases hqs : q.1 = service
      · rw [he, if_pos hqs]
        dsimp only
        rcases flag with _ | _
        · -- last_memory_update keeps its old value, last_sync becomes now
          have hrm : (service, record) ∈ m.sync_records := lookupKV_mem hrec
          simpa using (htle (service, record) hrm).2
        · simp
      · rw [he, if_neg hqs]
        exact ih q hq
  | check m service now _ ih =>
    intro p hp
    rw [TimeSyncManager.check_stale] at hp
    rcases hrec : lookupKV m.sync_records service with _ | record
    · rw [hrec] at hp
      exact ih p hp
    · rw [hrec] at hp
      dsimp only at hp
      by_cases hcond : now - record.last_sync > m.stale_threshold_ms ∧
          record.status = ServiceStatus.active
      · rw [if_pos hcond] at hp
        dsimp only at hp
        rcases mem_adjustKV hp with ⟨q, hq, he⟩
        by_cases hqs : q.1 = service
        · rw [he, if_pos hqs]
          exact ih q hq
        · rw [he, if_neg hqs]
          exact ih q hq
      · rw [if_neg hcond] at hp
        exact ih p hp

theorem sync_records_invariant_witness :
    (SyncRecord.mk "a" 5 5 ServiceStatus.active).last_memory_update
      ≤ (SyncRecord.mk "a" 5 5 ServiceStatus.active).last_sync :=
  sync_records_invariant
    ((TimeSyncManager.mk [] 60000).update_sync "a" true 5 5).2
    (Reach.update (TimeSyncManager.mk [] 60000) "a" true 5 5
      (Reach.init 60000) (fun p hp => by simp at hp) (le_refl 5))
    ("a", SyncRecord.mk "a" 5 5 ServiceStatus.active)
    (by decide)

/-- A 300-character prefix, used to refute the 256-character key bound. -/
def longPfx : String := String.mk (List.replicate 300 'x')

/-- **C3 (counterexample).** The derived key is not length-bounded at 256
characters: for a 300-character prefix (and no arguments) the joined key
has 300 characters, so the hash fallback fires, but the fallback keeps
the whole prefix and appends `:` plus the 32 hex digest characters,
giving a 333-character key. -/
theorem generate_key_length_cex : 256 < (generateKey longPfx [] []).length := by
  have hlen : longPfx.length = 300 := by
    show (List.replicate 300 'x').length = 300
    exact List.length_replicate 300 'x'
  rw [generateKey]
  have he : String.intercalate ":" ((longPfx :: []) ++
      (List.insertionSort pairLe []).map (fun kv => kv.1 ++ ":" ++ kv.2))
      = longPfx := rfl
  rw [he, if_pos (by rw [hlen]; omega)]
  rw [String.length_append, String.length_append, md5Hex_length, hlen]
  omega

/-- **C3 (amended).** `_generate_key` is deterministic (a pure function of
its inputs), its result does not depend on the order of the keyword
arguments (they are sorted internally), and a joined key longer than 256
characters is replaced by the prefix, a colon and the 32-character MD5
hex digest — a deterministic fallback of length `prefix.length + 33`.
The resulting key is therefore bounded by 256 characters whenever the
prefix has at most 223 characters (but not for longer prefixes). -/
theorem generate_key_spec (pfx : String) (args : List String)
    (kwargs kwargs2 : List (String × String))
    (hperm : kwargs.Perm kwargs2) (hp : pfx.length ≤ 223) :
    generateKey pfx args kwargs = generateKey pfx args kwargs2 ∧
    (generateKey pfx args kwargs).length ≤ 256 ∧
    (∀ s : String, (pfx ++ ":" ++ md5Hex s).length = pfx.length + 33) := by
  have hsort : List.insertionSort pairLe kwargs
      = List.insertionSort pairLe kwargs2 :=
    List.eq_of_perm_of_sorted
      ((List.perm_insertionSort pairLe kwargs).trans
        (hperm.trans (List.perm_insertionSort pairLe kwargs2).symm))
      (List.sorted_insertionSort pairLe kwargs)
      (List.sorted_insertionSort pairLe kwargs2)
  refine ⟨by rw [generateKey, generateKey, hsort], ?_, ?_⟩
  · rw [generateKey]
    set key := String.intercalate ":" ((pfx :: args) ++
      (List.insertionSort pairLe kwargs).map (fun kv => kv.1 ++ ":" ++ kv.2))
      with hkey
    by_cases hgt : key.length > 256
    · rw [if_pos hgt, String.length_append, String.length_append,
        md5Hex_length]
      have h1 : (":" : String).length = 1 := rfl
      omega
    · rw [if_neg hgt]
      omega
  · intro s
    rw [String.length_append, String.length_append, md5Hex_length]
    have h1 : (":" : String).length = 1 := rfl
    omega

theorem generate_key_spec_witness :
    generateKey "search" ["a"] [("k2", "v2"), ("k1", "v1")]
      = generateKey "search" ["a"] [("k1", "v1"), ("k2", "v2")] ∧
    (generateKey "search" ["a"] [("k2", "v2"), ("k1", "v1")]).length ≤ 256 ∧
    ("search" ++ ":" ++ md5Hex "q").length = "search".length + 33 := by
  have h := generate_key_spec "search" ["a"]
    [("k2", "v2"), ("k1", "v1")] [("k1", "v1"), ("k2", "v2")]
    (by decide) (by decide)
  exact ⟨h.1, h.2.1, h.2.2 "q"⟩

/-- Matching a single literal (non-`*`) pattern character against the
same character consumes both. -/
theorem globMatch_cons_lit (c : Char) (hc : c ≠ '*') (ps cs : List Char) :
    globMatch (c :: ps) (c :: cs) = globMatch ps cs := by
  rw [globMatch, if_neg hc]
  simp

/-- The pattern `search:default:*` cannot match `search:` followed by hex
digest characters: the digest would have to start with `default:`, and
`u` is not a hex digit. -/
theorem globMatch_searchdefault_hex (hx : String)
    (hh : ∀ c ∈ hx.data, isHexChar c = true) :
    globMatch "search:default:*".data ("search:" ++ hx).data = false := by
  have h1 : ("search:" ++ hx).data
      = 's' :: 'e' :: 'a' :: 'r' :: 'c' :: 'h' :: ':' :: hx.data := rfl
  have h2 : "search:default:*".data
      = 's' :: 'e' :: 'a' :: 'r' :: 'c' :: 'h' :: ':' :: "default:*".data :=
    rfl
  rw [h1, h2, globMatch_cons_lit 's' (by decide),
    globMatch_cons_lit 'e' (by decide), globMatch_cons_lit 'a' (by decide),
    globMatch_cons_lit 'r' (by decide), globMatch_cons_lit 'c' (by decide),
    globMatch_cons_lit 'h' (by decide), globMatch_cons_lit ':' (by decide)]
  exact globMatch_default_hex hx.data hh

/-- **C7 (amended).** Whenever the joined key
`search:<user_id>:<query>` does not exceed 256 characters, `cache_search`
writes exactly that key, so after a successful `cache_search`,
`invalidate_searches user_id` (clearing `search:<user_id>:*`, or
`search:*` for `"*"`) removes the entry and `get_cached_search` returns
none.  (For longer joined keys the stored key is the hash fallback
`search:<md5>`, which does not keep the `<user_id>:` component — see the
counterexample.) -/
theorem search_cache_roundtrip {α : Type} (c : RedisCache α)
    (user_id query : String) (results : α) (hc : c.connected = true)
    (hlen : ("search" ++ ":" ++ user_id ++ ":" ++ query).length ≤ 256) :
    generateKey "search" [user_id, query] []
      = "search" ++ ":" ++ user_id ++ ":" ++ query ∧
    (MemoryCache.cache_search c query results user_id).1 = true ∧
    MemoryCache.get_cached_search
      (MemoryCache.invalidate_searches
        (MemoryCache.cache_search c query results user_id).2 user_id).2
      query user_id = none := by
  have hkey : generateKey "search" [user_id, query] []
      = "search" ++ ":" ++ user_id ++ ":" ++ query := by
    rw [generateKey]
    have he : String.intercalate ":" (("search" :: [user_id, query]) ++
        (List.insertionSort pairLe []).map (fun kv => kv.1 ++ ":" ++ kv.2))
        = "search" ++ ":" ++ user_id ++ ":" ++ query := rfl
    rw [he, if_neg (by omega)]
  have hcs : MemoryCache.cache_search c query results user_id
      = (true, { c with store := (insertKV c.store
          ("search" ++ ":" ++ user_id ++ ":" ++ query) results) }) := by
    rw [MemoryCache.cache_search, hkey]
    simp [RedisCache.set, hc]
  have hmatch : globMatch
      ((if user_id != "*" then "search:" ++ user_id ++ ":*"
        else "search:*").data)
      ("search" ++ ":" ++ user_id ++ ":" ++ query).data = true := by
    by_cases hu : user_id = "*"
    · subst hu
      rw [if_neg (by simp)]
      have h1 : ("search:*").data = "search:".data ++ ['*'] := rfl
      have h2 : ("search" ++ ":" ++ "*" ++ ":" ++ query).data
          = "search:".data ++ ('*' :: ':' :: query.data) := by
        show "search".data ++ ":".data ++ "*".data ++ ":".data ++ query.data
          = _
        simp
      rw [h1, h2]
      exact globMatch_append_star "search:".data ('*' :: ':' :: query.data)
    · rw [if_pos (by simp [hu])]
      have h1 : ("search:" ++ user_id ++ ":*").data
          = ("search:".data ++ user_id.data ++ [':']) ++ ['*'] := by
        show "search:".data ++ user_id.data ++ ":*".data = _
        simp
      have h2 : ("search" ++ ":" ++ user_id ++ ":" ++ query).data
          = ("search:".data ++ user_id.data ++ [':']) ++ query.data := by
        show "search".data ++ ":".data ++ user_id.data ++ ":".data
          ++ query.data = _
        simp
      rw [h1, h2]
      exact globMatch_append_star _ _
  refine ⟨hkey, by rw [hcs], ?_⟩
  show (MemoryCache.invalidate_searches
      (MemoryCache.cache_search c query results user_id).2 user_id).2.get
      (generateKey "search" [user_id, query] []) = none
  rw [hkey, hcs]
  rw [MemoryCache.invalidate_searches, RedisCache.clear_pattern]
  simp only [hc, Bool.not_true, Bool.false_eq_true, if_false, RedisCache.get]
  exact lookupKV_filter_glob _ _ _ hmatch

theorem search_cache_roundtrip_witness :
    generateKey "search" ["u", "hello"] []
      = "search" ++ ":" ++ "u" ++ ":" ++ "hello" ∧
    (MemoryCache.cache_search (RedisCache.mk (α := Int) true [])
      "hello" 5 "u").1 = true ∧
    MemoryCache.get_cached_search
      (MemoryCache.invalidate_searches
        (MemoryCache.cache_search (RedisCache.mk (α := Int) true [])
          "hello" 5 "u").2 "u").2
      "hello" "u" = none :=
  search_cache_roundtrip (RedisCache.mk true []) "u" "hello" 5 rfl (by decide)

/-- A 300-character query, pushing the joined search key over 256. -/
def longQuery : String := String.mk (List.replicate 300 'q')

/-- **C7 (counterexample).** For the default user and a 300-character
query the joined key `search:default:<query>` has 315 characters, so
`_generate_key` stores under the hash fallback `search:<md5>`, which does
*not* have the form `search:<user_id>:<...>`; consequently
`invalidate_searches "default"` (pattern `search:default:*`) deletes
nothing and the subsequent `get_cached_search` still returns the cached
value instead of none. -/
theorem search_cache_invalidate_cex :
    (MemoryCache.cache_search (RedisCache.mk (α := Int) true [])
      longQuery 7 "default").1 = true ∧
    (MemoryCache.invalidate_searches
      (MemoryCache.cache_search (RedisCache.mk (α := Int) true [])
        longQuery 7 "default").2 "default").1 = 0 ∧
    MemoryCache.get_cached_search
      (MemoryCache.invalidate_searches
        (MemoryCache.cache_search (RedisCache.mk (α := Int) true [])
          longQuery 7 "default").2 "default").2
      longQuery "default" = some 7 := by
  have hqlen : longQuery.length = 300 := by
    show (List.replicate 300 'q').length = 300
    exact List.length_replicate 300 'q'
  have hjlen : ("search" ++ ":" ++ "default" ++ ":" ++ longQuery).length
      = 315 := by
    rw [String.length_append, String.length_append, String.length_append,
      String.length_append, hqlen]
    decide
  have hkey : generateKey "search" ["default", longQuery] []
      = "search" ++ ":"
        ++ md5Hex ("search" ++ ":" ++ "default" ++ ":" ++ longQuery) := by
    rw [generateKey]
    have he : String.intercalate ":" (("search" :: ["default", longQuery]) ++
        (List.insertionSort pairLe []).map (fun kv => kv.1 ++ ":" ++ kv.2))
        = "search" ++ ":" ++ "default" ++ ":" ++ longQuery := rfl
    rw [he, if_pos (by rw [hjlen]; omega)]
  have hcs : MemoryCache.cache_search (RedisCache.mk (α := Int) true [])
      longQuery 7 "default"
      = (true, RedisCache.mk true
          [("search" ++ ":"
            ++ md5Hex ("search" ++ ":" ++ "default" ++ ":" ++ longQuery),
            7)]) := by
    rw [MemoryCache.cache_search, hkey]
    simp [RedisCache.set, insertKV]
  have hnomatch : globMatch "search:default:*".data
      ("search" ++ ":"
        ++ md5Hex ("search" ++ ":" ++ "default" ++ ":" ++ longQuery)).data
      = false := by
    have hs : "search" ++ ":"
        ++ md5Hex ("search" ++ ":" ++ "default" ++ ":" ++ longQuery)
        = "search:"
          ++ md5Hex ("search" ++ ":" ++ "default" ++ ":" ++ longQuery) := rfl
    rw [hs]
    exact globMatch_searchdefault_hex _ (md5Hex_all_hex _)
  have hinv : MemoryCache.invalidate_searches
      (RedisCache.mk (α := Int) true
        [("search" ++ ":"
          ++ md5Hex ("search" ++ ":" ++ "default" ++ ":" ++ longQuery),
          7)]) "default"
      = (0, RedisCache.mk true
          [("search" ++ ":"
            ++ md5Hex ("search" ++ ":" ++ "default" ++ ":" ++ longQuery),
            7)]) := by
    rw [MemoryCache.invalidate_searches]
    have hpat : (if ("default" : String) != "*"
        then "search:" ++ "default" ++ ":*" else "search:*")
        = "search:default:*" := rfl
    rw [hpat, RedisCache.clear_pattern]
    simp only [Bool.not_true, Bool.false_eq_true, if_false, List.filter_cons,
      List.filter_nil, hnomatch, Bool.not_false, if_true, List.length_nil]
  rw [hcs]
  refine ⟨rfl, ?_, ?_⟩
  · rw [hinv]
  · show (MemoryCache.invalidate_searches
      (RedisCache.mk (α := Int) true
        [("search" ++ ":"
          ++ md5Hex ("search" ++ ":" ++ "default" ++ ":" ++ longQuery),
          7)]) "default").2.get
      (generateKey "search" ["default", longQuery] []) = some 7
    rw [hinv, hkey, RedisCache.get]
    simp [lookupKV]
